import Mathlib

/-!
Verification of the single-feature synchronization bridge
(`src/olgm/herald/feature.js`): a shallow embedding of the bridge state and
its operations (`activate`, `deactivate`, `setVisible`, the geometry-change
and geometry-replace handlers), together with a model of the event system
(subscription keys, listener registry, synchronous dispatch).

Object identity matters for the spec (the same overlay objects must be
reused, subscriptions are bound to a specific geometry instance), so every
created object carries a `Nat` identity drawn from a freshness counter
`nextId` in the state.  External collaborators that live in this repository
but outside the provided sources (the `Herald` base class, `asserts.js`,
`util.js`, the `gm.js` factories) are modelled from the spec's interface
contracts; each such definition is marked `Modelled from the spec:`.
-/

namespace OlgmFeature

/-- A source (ol) geometry object: an object identity `gid` plus its current
shape, abstracted as a center point (the only shape datum the bridge reads). -/
structure Geometry where
  gid : Nat
  center : Int × Int
deriving DecidableEq, Repr

/-- An image carried by an ol style; `isIcon` records whether it satisfies
the `image instanceof Icon` test in `activate`. -/
structure StyleImage where
  isIcon : Bool
deriving DecidableEq, Repr

/-- An ol style as read by the bridge: `getZIndex()` (possibly undefined),
`getImage()` (possibly null) and `getText()` (possibly null/empty). -/
structure OlStyle where
  zIndex : Option Int
  image : Option StyleImage
  text : Option String
deriving DecidableEq, Repr

/-- The source ol feature: its geometry attribute (replaceable wholesale,
possibly unset) and its style. -/
structure SourceFeature where
  geometry : Option Geometry
  style : Option OlStyle
deriving DecidableEq, Repr

/-- Icon-rendering options; `useCanvas` may be left undefined. -/
structure MapIconOptions where
  useCanvas : Option Bool
deriving DecidableEq, Repr

/-- A mirror (gmap) geometry produced by the `createFeatureGeometry`
factory: the translated shape, abstracted as its center point. -/
structure GmGeometry where
  center : Int × Int
deriving DecidableEq, Repr

/-- The mirror (gmap Data) feature: object identity plus its geometry. -/
structure GmapFeature where
  fid : Nat
  geom : GmGeometry
deriving DecidableEq, Repr

/-- A map overlay (MapIcon marker or MapLabel): object identity, `position`
attribute, draw index, and the map it is attached to (`none` = detached). -/
structure Overlay where
  oid : Nat
  position : Int × Int
  zIndex : Int
  map : Option Unit
deriving DecidableEq, Repr

/-- A target of an event subscription: the `change` event of a specific
geometry object instance, or the feature's `change:<geometryName>` event. -/
inductive Target where
  | geomChange (gid : Nat)
  | geomReplace
deriving DecidableEq, Repr

/-- Which of the bridge's two handlers a subscription routes to. -/
inductive HandlerTag where
  | geometryChange
  | geometryReplace
deriving DecidableEq, Repr

/-- A live listener in the event system: subscription key identity, event
target, and the handler it routes to. -/
structure Listener where
  kid : Nat
  target : Target
  handler : HandlerTag
deriving DecidableEq, Repr

/-- The whole bridge world: the bridge's own fields from `feature.js`
(`feature_`, `data_`, `index_`, `mapIconOptions_`, `visible_`,
`gmapFeature_`, `marker_`, `label_`, `geometryChangeKey_`), the Lifecycle
Registry state (`listenerKeys`, `active`), the event system's live listener
list, and a freshness counter for object/key identities.  The data layer is
a list of mirror-feature references (a `none` entry records that a null
reference was passed to `data.add`). -/
structure S where
  feature : SourceFeature
  dataLayer : List (Option Nat)
  index : Int
  mapIconOptions : MapIconOptions
  visible : Bool
  gmapFeature : Option GmapFeature
  marker : Option Overlay
  label : Option Overlay
  styleOverridden : Bool
  listenerKeys : List Nat
  geometryChangeKey : Option Nat
  active : Bool
  listeners : List Listener
  nextId : Nat
deriving DecidableEq, Repr

/-- Modelled from the spec: `centerOf(sourceGeometry) -> Point`
(`getCenterOf` from `util.js`, not under the provided sources). -/
def getCenterOf (g : Geometry) : Int × Int := g.center

/-- Modelled from the spec: `styleOf(sourceFeature) -> Style | null`
(`getStyleOf` from `util.js`, not under the provided sources). -/
def getStyleOf (f : SourceFeature) : Option OlStyle := f.style

/-- Modelled from the spec: `toMirrorCoordinate(point)` (`createLatLng`
from `gm.js`, not under the provided sources): converts a center point to
the mirror engine's coordinate type. -/
def createLatLng (p : Int × Int) : Int × Int := p

/-- Modelled from the spec: `toMirrorGeometry(sourceGeometry)`
(`createFeatureGeometry` from `gm.js`, not under the provided sources). -/
def createFeatureGeometry (g : Geometry) : GmGeometry := ⟨g.center⟩

/-- Modelled from the spec: `createMirrorStyle(sourceFeature, iconOptions,
renderIndex) -> MirrorStyle | null` (`createStyle` from `gm.js`, not under
the provided sources); non-null when the source feature carries a style. -/
def createStyle (f : SourceFeature) (_o : MapIconOptions) (_i : Int) :
    Option Unit :=
  f.style.map (fun _ => ())

/-- `Feature.prototype.getGeometry_`: reads the source feature's geometry
and asserts it is defined.  The `assert` helper (from `asserts.js`, not
under the provided sources) is modelled from the spec: it fails with a
`PreconditionError` that propagates to the caller. -/
def getGeometry_ (s : S) : Except String Geometry :=
  match s.feature.geometry with
  | some g => Except.ok g
  | none => Except.error "AssertionError: Expected feature to have geometry"

/-- `observable.on(event, handler)`: registers a listener with a fresh
subscription key and returns the key (the ol event-system contract:
subscription handles are opaque tokens returned by subscribe). -/
def listen (t : Target) (h : HandlerTag) (s : S) : Nat × S :=
  (s.nextId,
    { s with
      listeners := s.listeners ++ [⟨s.nextId, t, h⟩]
      nextId := s.nextId + 1 })

/-- `Observable.unByKey(key)`: removes the listener with that key from the
event system. -/
def unByKey (k : Nat) (s : S) : S :=
  { s with listeners := s.listeners.filter (fun l => l.kid != k) }

/-- Modelled from the spec: Lifecycle Registry `activate()` — marks the
entity active, no-op if already active (`Herald.prototype.activate`, not
under the provided sources). -/
def heraldActivate (s : S) : S := { s with active := true }

/-- Modelled from the spec: Lifecycle Registry `deactivate()` — unsubscribes
every handle registered in `listenerKeys` and clears the list, marking the
entity inactive (`Herald.prototype.deactivate`, not under the provided
sources; the spec guarantees all registered subscriptions are removed). -/
def heraldDeactivate (s : S) : S :=
  { s with
    listeners := s.listeners.filter (fun l => !s.listenerKeys.contains l.kid)
    listenerKeys := []
    active := false }

/-- The `Feature` constructor: fields from the options object
(`visible` defaults to `true` when undefined), prototype defaults (`null`)
for the mirror feature and overlays, and a fresh Lifecycle Registry.
`dataLayer` and `nextId` are the ambient shared data layer contents and the
current identity counter. -/
def mkBridge (feature : SourceFeature) (dataLayer : List (Option Nat))
    (index : Int) (opts : MapIconOptions) (visible : Option Bool)
    (nextId : Nat) : S :=
  { feature := feature
    dataLayer := dataLayer
    index := index
    mapIconOptions := opts
    visible := visible.getD true
    gmapFeature := none
    marker := none
    label := none
    styleOverridden := false
    listenerKeys := []
    geometryChangeKey := none
    active := false
    listeners := []
    nextId := nextId }

/-- `Feature.prototype.activate`, translated statement by statement:
call the base activate, assert a geometry, create the mirror feature
(adding it to the data layer only if visible), apply the style override if
non-null, then — if the feature has a style — create the icon marker
(image present, icon-typed, canvas rendering enabled) and the label (text
present), each at the center point with the style's z-index or the
construction index; finally subscribe to the geometry's `change` event and
the feature's `change:<geometryName>` event, registering both keys. -/
def activate (s0 : S) : Except String S :=
  let s := heraldActivate s0
  match getGeometry_ s with
  | Except.error e => Except.error e
  | Except.ok geometry =>
    let gf : GmapFeature := ⟨s.nextId, createFeatureGeometry geometry⟩
    let s := { s with gmapFeature := some gf, nextId := s.nextId + 1 }
    let s := if s.visible then { s with dataLayer := some gf.fid :: s.dataLayer } else s
    let gmStyle := createStyle s.feature s.mapIconOptions s.index
    let s := if gmStyle.isSome then { s with styleOverridden := true } else s
    let latLng := createLatLng (getCenterOf geometry)
    let s :=
      match getStyleOf s.feature with
      | none => s
      | some style =>
        let index : Int := style.zIndex.getD s.index
        let useCanvas : Bool := s.mapIconOptions.useCanvas.getD false
        let s :=
          match style.image with
          | some image =>
            if image.isIcon && useCanvas then
              let marker : Overlay := ⟨s.nextId, latLng, index, none⟩
              let s := { s with marker := some marker, nextId := s.nextId + 1 }
              if s.visible then
                { s with marker := some { marker with map := some () } }
              else s
            else s
          | none => s
        let s :=
          match style.text with
          | some _ =>
            let label : Overlay := ⟨s.nextId, latLng, index, none⟩
            let s := { s with label := some label, nextId := s.nextId + 1 }
            if s.visible then
              { s with label := some { label with map := some () } }
            else s
          | none => s
        s
    let p := listen (Target.geomChange geometry.gid) HandlerTag.geometryChange s
    let s := { p.2 with
      geometryChangeKey := some p.1
      listenerKeys := p.2.listenerKeys ++ [p.1] }
    let q := listen Target.geomReplace HandlerTag.geometryReplace s
    let s := { q.2 with listenerKeys := q.2.listenerKeys ++ [q.1] }
    Except.ok s

/-- `Feature.prototype.deactivate`: remove the mirror feature from the data
layer and release the reference, detach and release the marker and label if
present, then delegate to the Lifecycle Registry to clear all registered
subscriptions. -/
def deactivate (s0 : S) : S :=
  let s := { s0 with
    dataLayer := s0.dataLayer.erase (s0.gmapFeature.map (fun gf : GmapFeature => gf.fid))
    gmapFeature := none }
  let s := match s.marker with
    | some _ => { s with marker := none }
    | none => s
  let s := match s.label with
    | some _ => { s with label := none }
    | none => s
  heraldDeactivate s

/-- `Feature.prototype.setVisible`: transition-gated — showing while hidden
re-adds the mirror-feature reference (whatever it is, null included) to the
data layer and re-attaches existing overlays; hiding while visible removes
it and detaches existing overlays; otherwise nothing happens. -/
def setVisible (value : Bool) (s : S) : S :=
  if value && !s.visible then
    let s := { s with dataLayer := (s.gmapFeature.map (fun gf : GmapFeature => gf.fid)) :: s.dataLayer }
    let s := match s.marker with
      | some m => { s with marker := some { m with map := some () } }
      | none => s
    let s := match s.label with
      | some l => { s with label := some { l with map := some () } }
      | none => s
    { s with visible := true }
  else if !value && s.visible then
    let s := { s with dataLayer := s.dataLayer.erase (s.gmapFeature.map (fun gf : GmapFeature => gf.fid)) }
    let s := match s.marker with
      | some m => { s with marker := some { m with map := none } }
      | none => s
    let s := match s.label with
      | some l => { s with label := some { l with map := none } }
      | none => s
    { s with visible := false }
  else s

/-- `Feature.prototype.handleGeometryChange_`: re-read the geometry through
`getGeometry_`, set the translated geometry on the mirror feature (a
TypeError if the mirror-feature reference is null), and update the
`position` attribute of the label and marker, when they exist, to the new
center point. -/
def handleGeometryChange_ (s : S) : Except String S :=
  match getGeometry_ s with
  | Except.error e => Except.error e
  | Except.ok geometry =>
    match s.gmapFeature with
    | none => Except.error "TypeError: gmapFeature is null"
    | some gf =>
      let s := { s with gmapFeature := some { gf with geom := createFeatureGeometry geometry } }
      let s := match s.label with
        | some l => { s with label := some { l with position := createLatLng (getCenterOf geometry) } }
        | none => s
      let s := match s.marker with
        | some m => { s with marker := some { m with position := createLatLng (getCenterOf geometry) } }
        | none => s
      Except.ok s

/-- JavaScript `keys.splice(keys.indexOf(k), 1)`: removes the first
occurrence of `k` when present; when absent, `indexOf` returns `-1` and
`splice(-1, 1)` removes the last element. -/
def jsSpliceIndexOf (keys : List Nat) (k : Nat) : List Nat :=
  if keys.contains k then keys.erase k else keys.dropLast

/-- `Feature.prototype.handleGeometryReplace_`: unsubscribe the old
geometry-change key and splice it out of `listenerKeys`, subscribe to the
*current* (new) geometry object's `change` event (a TypeError if the
geometry attribute is now undefined), register the new key, and invoke the
geometry-change handler once, synchronously. -/
def handleGeometryReplace_ (s : S) : Except String S :=
  match s.geometryChangeKey with
  | none => Except.error "TypeError: geometryChangeKey is undefined"
  | some k =>
    let s := unByKey k s
    let s := { s with listenerKeys := jsSpliceIndexOf s.listenerKeys k }
    match s.feature.geometry with
    | none => Except.error "TypeError: geometry is undefined"
    | some g =>
      let p := listen (Target.geomChange g.gid) HandlerTag.geometryChange s
      let s := { p.2 with
        geometryChangeKey := some p.1
        listenerKeys := p.2.listenerKeys ++ [p.1] }
      handleGeometryChange_ s

/-- Dispatching to one of the bridge's handlers. -/
def runHandler (h : HandlerTag) (s : S) : Except String S :=
  match h with
  | HandlerTag.geometryChange => handleGeometryChange_ s
  | HandlerTag.geometryReplace => handleGeometryReplace_ s

/-- Synchronous event dispatch: run, in order, every listener registered
for the target. -/
def fireListeners (t : Target) (s : S) : Except String S :=
  (s.listeners.filter (fun l => decide (l.target = t))).foldlM
    (fun s l => runHandler l.handler s) s

/-- Environment action: mutate the current geometry object in place (set
its center), then fire that geometry instance's `change` listeners. -/
def mutateGeometry (c : Int × Int) (s : S) : Except String S :=
  match s.feature.geometry with
  | none => Except.error "no geometry to mutate"
  | some g =>
    let g2 : Geometry := { g with center := c }
    let s := { s with feature := { s.feature with geometry := some g2 } }
    fireListeners (Target.geomChange g2.gid) s

/-- Environment action: replace the feature's geometry attribute with a new
geometry object instance, firing the feature's `change:<geometryName>`
listeners (the old instance's own `change` listeners do not fire). -/
def replaceGeometry (g : Geometry) (s : S) : Except String S :=
  let s := { s with feature := { s.feature with geometry := some g } }
  fireListeners Target.geomReplace s

/-- Whether `activate` creates an icon marker for a given style and icon
options: an image is present, icon-typed, and canvas rendering is enabled. -/
def markerCond (st : OlStyle) (o : MapIconOptions) : Bool :=
  match st.image with
  | some image => image.isIcon && o.useCanvas.getD false
  | none => false

/-- The draw index `activate` resolves for overlays: the style's z-index
when defined, else the construction-time rendering index. -/
def overlayIndex (st : OlStyle) (i : Int) : Int := st.zIndex.getD i

/-- The exact state `activate` produces from a freshly constructed bridge
(proved in `activate_mkBridge` below). -/
def activateModel (f : SourceFeature) (d : List (Option Nat)) (i : Int)
    (o : MapIconOptions) (v : Option Bool) (n : Nat) (g : Geometry) : S :=
  let vis := v.getD true
  let mCnt : Nat := match f.style with
    | some st => if markerCond st o then 1 else 0
    | none => 0
  let lCnt : Nat := match f.style with
    | some st => if st.text.isSome then 1 else 0
    | none => 0
  let k1 := n + 1 + mCnt + lCnt
  { feature := f
    dataLayer := if vis then some n :: d else d
    index := i
    mapIconOptions := o
    visible := vis
    gmapFeature := some ⟨n, createFeatureGeometry g⟩
    marker := match f.style with
      | some st =>
        if markerCond st o then
          some ⟨n + 1, g.center, overlayIndex st i, if vis then some () else none⟩
        else none
      | none => none
    label := match f.style with
      | some st =>
        if st.text.isSome then
          some ⟨n + 1 + mCnt, g.center, overlayIndex st i, if vis then some () else none⟩
        else none
      | none => none
    styleOverridden := f.style.isSome
    listenerKeys := [k1, k1 + 1]
    geometryChangeKey := some k1
    active := true
    listeners := [⟨k1, Target.geomChange g.gid, HandlerTag.geometryChange⟩,
                  ⟨k1 + 1, Target.geomReplace, HandlerTag.geometryReplace⟩]
    nextId := k1 + 2 }

/-- An active single-bridge world: the live listeners are exactly the
bridge's two subscriptions — the geometry-change subscription bound to the
geometry instance currently attached to the source feature, and the
geometry-replace subscription on the feature — both registered in the
Lifecycle Registry, with every issued key below the freshness counter. -/
def ActiveShape (s : S) : Prop :=
  ∃ g gf k1 k2,
    s.feature.geometry = some g ∧
    s.gmapFeature = some gf ∧
    s.geometryChangeKey = some k1 ∧
    (s.listeners = [⟨k1, Target.geomChange g.gid, HandlerTag.geometryChange⟩,
                    ⟨k2, Target.geomReplace, HandlerTag.geometryReplace⟩] ∨
     s.listeners = [⟨k2, Target.geomReplace, HandlerTag.geometryReplace⟩,
                    ⟨k1, Target.geomChange g.gid, HandlerTag.geometryChange⟩]) ∧
    (s.listenerKeys = [k1, k2] ∨ s.listenerKeys = [k2, k1]) ∧
    k1 < s.nextId ∧ k2 < s.nextId ∧ k1 ≠ k2

/-- A concrete activated bridge (style-less point feature at (1, 2)),
used to instantiate the general theorems. -/
def sampleActive : S :=
  activateModel ⟨some ⟨0, (1, 2)⟩, none⟩ [] 0 ⟨none⟩ none 10 ⟨0, (1, 2)⟩

/-- `activate` on a freshly constructed bridge whose feature carries a
geometry produces exactly the state described by `activateModel`. -/
theorem activate_mkBridge (f : SourceFeature) (d : List (Option Nat)) (i : Int)
    (o : MapIconOptions) (v : Option Bool) (n : Nat) (g : Geometry)
    (hg : f.geometry = some g) :
    activate (mkBridge f d i o v n) = Except.ok (activateModel f d i o v n g) := by
  obtain ⟨fg, fs⟩ := f
  obtain rfl : fg = some g := hg
  obtain ⟨uc⟩ := o
  rcases fs with _ | ⟨zi, img, tx⟩ <;>
    rcases v with _ | (_ | _) <;>
    rcases uc with _ | (_ | _) <;>
    first
    | rfl
    | (rcases img with _ | ⟨_ | _⟩ <;> rcases tx with _ | _ <;> rfl)

/-- Every freshly activated bridge is in `ActiveShape`. -/
theorem activateModel_activeShape (f : SourceFeature) (d : List (Option Nat))
    (i : Int) (o : MapIconOptions) (v : Option Bool) (n : Nat) (g : Geometry)
    (hg : f.geometry = some g) :
    ActiveShape (activateModel f d i o v n g) := by
  refine ⟨g, _, _, _, hg, rfl, rfl, Or.inl rfl, Or.inl rfl, ?_, ?_, ?_⟩ <;>
    first
    | (simp only [activateModel]; omega)
    | omega

/-- C3: activation fails with the precondition error exactly when the
source feature has no geometry attached; with a geometry attached the
error branch is not taken and activation succeeds. -/
theorem activate_missing_geometry_error (f : SourceFeature)
    (d : List (Option Nat)) (i : Int) (o : MapIconOptions) (v : Option Bool)
    (n : Nat) :
    (f.geometry = none →
      activate (mkBridge f d i o v n) =
        Except.error "AssertionError: Expected feature to have geometry") ∧
    (∀ g, f.geometry = some g →
      ∃ s', activate (mkBridge f d i o v n) = Except.ok s') := by
  constructor
  · intro h
    simp [activate, mkBridge, heraldActivate, getGeometry_, h]
  · intro g hg
    exact ⟨_, activate_mkBridge f d i o v n g hg⟩

/-- C3 witness: a feature without geometry fails activation; one with a
geometry activates. -/
theorem activate_missing_geometry_error_spot :
    activate (mkBridge ⟨none, none⟩ [] 0 ⟨none⟩ none 0) =
      Except.error "AssertionError: Expected feature to have geometry" ∧
    ∃ s', activate (mkBridge ⟨some ⟨0, (0, 0)⟩, none⟩ [] 0 ⟨none⟩ none 0) =
      Except.ok s' :=
  ⟨(activate_missing_geometry_error ⟨none, none⟩ [] 0 ⟨none⟩ none 0).1 rfl,
   (activate_missing_geometry_error ⟨some ⟨0, (0, 0)⟩, none⟩ [] 0 ⟨none⟩ none 0).2
     ⟨0, (0, 0)⟩ rfl⟩

/-- C5: calling `setVisible` with the value matching the stored flag
changes nothing at all, and `setVisible v` is idempotent for every state. -/
theorem setVisible_matching_noop_idempotent (v : Bool) (s : S) :
    (s.visible = v → setVisible v s = s) ∧
    setVisible v (setVisible v s) = setVisible v s := by
  have key : ∀ t : S, t.visible = v → setVisible v t = t := by
    intro t h
    cases v <;> simp [setVisible, h]
  refine ⟨key s, key _ ?_⟩
  cases v <;> rcases h : s.visible <;> simp [setVisible, h]

/-- C5 witness: `setVisible true` on a visible sample state is a no-op and
idempotent. -/
theorem setVisible_matching_noop_idempotent_spot :
    setVisible true sampleActive = sampleActive ∧
    setVisible true (setVisible true sampleActive) =
      setVisible true sampleActive :=
  ⟨(setVisible_matching_noop_idempotent true sampleActive).1 (by decide),
   (setVisible_matching_noop_idempotent true sampleActive).2⟩

/-- C9: when `useCanvas` is left undefined in the icon options, canvas
rendering defaults to disabled and `activate` never creates a marker. -/
theorem useCanvas_undefined_no_marker (f : SourceFeature)
    (d : List (Option Nat)) (i : Int) (o : MapIconOptions) (v : Option Bool)
    (n : Nat) (g : Geometry) (hg : f.geometry = some g)
    (hc : o.useCanvas = none) :
    ∃ s', activate (mkBridge f d i o v n) = Except.ok s' ∧ s'.marker = none := by
  refine ⟨_, activate_mkBridge f d i o v n g hg, ?_⟩
  rcases f with ⟨fg, _ | ⟨zi, _ | img, tx⟩⟩ <;>
    simp [activateModel, markerCond, hc]

/-- C9 witness: icon-typed image with `useCanvas` undefined yields no
marker. -/
theorem useCanvas_undefined_no_marker_spot :
    ∃ s', activate (mkBridge ⟨some ⟨0, (0, 0)⟩, some ⟨none, some ⟨true⟩, none⟩⟩
        [] 0 ⟨none⟩ none 0) = Except.ok s' ∧ s'.marker = none :=
  useCanvas_undefined_no_marker ⟨some ⟨0, (0, 0)⟩, some ⟨none, some ⟨true⟩, none⟩⟩
    [] 0 ⟨none⟩ none 0 ⟨0, (0, 0)⟩ rfl rfl

/-- C10: with a null mirror-feature reference (inactive bridge),
`setVisible` performs no guard: showing passes the null reference to the
data layer's add (a `none` entry appears) and hiding passes it to remove. -/
theorem setVisible_inactive_passes_null (s : S) (h : s.gmapFeature = none) :
    (s.visible = false →
      (setVisible true s).dataLayer = (none : Option Nat) :: s.dataLayer) ∧
    (s.visible = true →
      (setVisible false s).dataLayer = s.dataLayer.erase (none : Option Nat)) := by
  constructor <;> intro hv <;>
    rcases hm : s.marker with _ | m <;>
    rcases hl : s.label with _ | l <;>
    simp [setVisible, hv, h, hm, hl]

/-- C10 witness: a deactivated sample bridge passes null to `data.add`. -/
theorem setVisible_inactive_passes_null_spot :
    (setVisible true (setVisible false (deactivate sampleActive))).dataLayer =
      (none : Option Nat) :: (setVisible false (deactivate sampleActive)).dataLayer :=
  (setVisible_inactive_passes_null (setVisible false (deactivate sampleActive))
    (by decide)).1 (by decide)

/-- Field-wise description of `deactivate`. -/
theorem deactivate_fields (s : S) :
    (deactivate s).listenerKeys = [] ∧
    (deactivate s).active = false ∧
    (deactivate s).gmapFeature = none ∧
    (deactivate s).marker = none ∧
    (deactivate s).label = none ∧
    (deactivate s).dataLayer =
      s.dataLayer.erase (s.gmapFeature.map (fun gf : GmapFeature => gf.fid)) ∧
    (deactivate s).listeners =
      s.listeners.filter (fun l => !s.listenerKeys.contains l.kid) := by
  rcases hm : s.marker with _ | m <;> rcases hl : s.label with _ | l <;>
    simp [deactivate, heraldDeactivate, hm, hl]

/-- C2: activating a bridge over a feature with a geometry and then
immediately deactivating it leaves the Lifecycle Registry's key list empty,
leaves no live subscription in the event system, removes the mirror feature
from the data layer (restoring the layer's prior contents), and releases
the mirror-feature, marker and label references. -/
theorem activate_then_deactivate_clean (f : SourceFeature)
    (d : List (Option Nat)) (i : Int) (o : MapIconOptions) (v : Option Bool)
    (n : Nat) (g : Geometry) (hg : f.geometry = some g)
    (hd : (some n : Option Nat) ∉ d) :
    ∃ s', activate (mkBridge f d i o v n) = Except.ok s' ∧
      (deactivate s').listenerKeys = [] ∧
      (deactivate s').listeners = [] ∧
      (deactivate s').dataLayer = d ∧
      (deactivate s').gmapFeature = none ∧
      (deactivate s').marker = none ∧
      (deactivate s').label = none := by
  obtain ⟨hk, _, hgm, hmk, hlb, hdl, hls⟩ :=
    deactivate_fields (activateModel f d i o v n g)
  refine ⟨_, activate_mkBridge f d i o v n g hg, hk, ?_, ?_, hgm, hmk, hlb⟩
  · rw [hls]
    simp [activateModel]
  · rw [hdl]
    simp only [activateModel]
    rcases v with _ | (_ | _) <;>
      simp [List.erase_cons_head, List.erase_of_not_mem hd]

/-- C2 witness: the sample bridge activates and deactivates cleanly. -/
theorem activate_then_deactivate_clean_spot :
    ∃ s', activate (mkBridge ⟨some ⟨0, (1, 2)⟩, none⟩ [] 0 ⟨none⟩ none 10) =
        Except.ok s' ∧
      (deactivate s').listenerKeys = [] ∧
      (deactivate s').listeners = [] ∧
      (deactivate s').dataLayer = [] ∧
      (deactivate s').gmapFeature = none ∧
      (deactivate s').marker = none ∧
      (deactivate s').label = none :=
  activate_then_deactivate_clean ⟨some ⟨0, (1, 2)⟩, none⟩ [] 0 ⟨none⟩ none 10
    ⟨0, (1, 2)⟩ rfl (by decide)

/-- C8: `deactivate` is a total operation (it raises no error), and calling
it twice in a row is the same as calling it once: the second call finds the
registry already cleared and the references already released, and changes
nothing. -/
theorem deactivate_twice_noop (s : S)
    (hd : (none : Option Nat) ∉ s.dataLayer) :
    deactivate (deactivate s) = deactivate s := by
  obtain ⟨f, dL, i, o, vis, gmf, mk, lb, so, keys, gck, act, ls, nid⟩ := s
  have hd2 : (none : Option Nat) ∉
      dL.erase (gmf.map (fun gf : GmapFeature => gf.fid)) :=
    fun h => hd (List.mem_of_mem_erase h)
  rcases mk with _ | m <;> rcases lb with _ | l <;>
    simp_all [deactivate, heraldDeactivate, List.erase_of_not_mem hd2]

/-- C8 witness: deactivating the deactivated sample bridge changes
nothing. -/
theorem deactivate_twice_noop_spot :
    deactivate (deactivate sampleActive) = deactivate sampleActive :=
  deactivate_twice_noop sampleActive (by decide)

/-- C6: on an active bridge the geometry-change handler succeeds and
touches only the mirror feature's geometry and the `position` attribute of
whichever overlays already exist (same object identities, draw indices and
map attachment); it never creates, destroys or replaces an overlay, and it
leaves the visibility flag, data-layer membership, subscriptions and the
freshness counter unchanged. -/
theorem geometry_change_frame (s : S) (g : Geometry) (gf : GmapFeature)
    (hg : s.feature.geometry = some g) (hgf : s.gmapFeature = some gf) :
    ∃ s', handleGeometryChange_ s = Except.ok s' ∧
      s'.gmapFeature = some { gf with geom := createFeatureGeometry g } ∧
      s'.label = s.label.map
        (fun l => { l with position := createLatLng (getCenterOf g) }) ∧
      s'.marker = s.marker.map
        (fun m => { m with position := createLatLng (getCenterOf g) }) ∧
      s'.visible = s.visible ∧
      s'.dataLayer = s.dataLayer ∧
      s'.listeners = s.listeners ∧
      s'.listenerKeys = s.listenerKeys ∧
      s'.geometryChangeKey = s.geometryChangeKey ∧
      s'.nextId = s.nextId ∧
      s'.feature = s.feature ∧
      s'.active = s.active := by
  rcases hm : s.marker with _ | m <;> rcases hl : s.label with _ | l <;>
    simp [handleGeometryChange_, getGeometry_, hg, hgf, hm, hl]

/-- C6 witness: the handler on the sample active bridge (no overlays)
updates only the mirror geometry. -/
theorem geometry_change_frame_spot :
    ∃ s', handleGeometryChange_ sampleActive = Except.ok s' ∧
      s'.gmapFeature = some { fid := 10, geom := createFeatureGeometry ⟨0, (1, 2)⟩ } ∧
      s'.label = sampleActive.label.map
        (fun l => { l with position := createLatLng (getCenterOf ⟨0, (1, 2)⟩) }) ∧
      s'.marker = sampleActive.marker.map
        (fun m => { m with position := createLatLng (getCenterOf ⟨0, (1, 2)⟩) }) ∧
      s'.visible = sampleActive.visible ∧
      s'.dataLayer = sampleActive.dataLayer ∧
      s'.listeners = sampleActive.listeners ∧
      s'.listenerKeys = sampleActive.listenerKeys ∧
      s'.geometryChangeKey = sampleActive.geometryChangeKey ∧
      s'.nextId = sampleActive.nextId ∧
      s'.feature = sampleActive.feature ∧
      s'.active = sampleActive.active :=
  geometry_change_frame sampleActive ⟨0, (1, 2)⟩ ⟨10, ⟨(1, 2)⟩⟩ rfl rfl

/-- C4: hiding and then re-showing an active, visible bridge restores the
identical mirror-feature, marker and label objects (re-attached) and puts
the mirror feature back into the data layer, restores the visibility flag,
and allocates nothing new. -/
theorem setVisible_roundtrip_identity (s : S) (gf : GmapFeature)
    (hv : s.visible = true) (hgf : s.gmapFeature = some gf)
    (hm : ∀ m, s.marker = some m → m.map = some ())
    (hl : ∀ l, s.label = some l → l.map = some ()) :
    (setVisible true (setVisible false s)).visible = true ∧
    (setVisible true (setVisible false s)).gmapFeature = s.gmapFeature ∧
    (setVisible true (setVisible false s)).marker = s.marker ∧
    (setVisible true (setVisible false s)).label = s.label ∧
    some gf.fid ∈ (setVisible true (setVisible false s)).dataLayer ∧
    (setVisible true (setVisible false s)).nextId = s.nextId ∧
    (setVisible true (setVisible false s)).listeners = s.listeners ∧
    (setVisible true (setVisible false s)).listenerKeys = s.listenerKeys := by
  rcases hmk : s.marker with _ | ⟨mo, mp, mz, mm⟩ <;>
    rcases hlb : s.label with _ | ⟨lo, lp, lz, lm⟩ <;>
    simp_all [setVisible]

/-- C4 witness: round trip on the sample active bridge. -/
theorem setVisible_roundtrip_identity_spot :
    (setVisible true (setVisible false sampleActive)).visible = true ∧
    (setVisible true (setVisible false sampleActive)).gmapFeature =
      sampleActive.gmapFeature ∧
    (setVisible true (setVisible false sampleActive)).marker =
      sampleActive.marker ∧
    (setVisible true (setVisible false sampleActive)).label =
      sampleActive.label ∧
    some (10 : Nat) ∈ (setVisible true (setVisible false sampleActive)).dataLayer ∧
    (setVisible true (setVisible false sampleActive)).nextId =
      sampleActive.nextId ∧
    (setVisible true (setVisible false sampleActive)).listeners =
      sampleActive.listeners ∧
    (setVisible true (setVisible false sampleActive)).listenerKeys =
      sampleActive.listenerKeys :=
  setVisible_roundtrip_identity sampleActive ⟨10, ⟨(1, 2)⟩⟩ (by decide) (by decide)
    (fun m h => by simp [sampleActive, activateModel] at h) 
    (fun l h => by simp [sampleActive, activateModel] at h)

/-- C7: `activate` creates an icon marker exactly when the source style
carries an icon-typed image and canvas rendering is enabled, and a label
exactly when the style carries text; each created overlay's draw index is
the style's z-index when defined, else the construction-time rendering
index. -/
theorem activate_overlay_conditions (f : SourceFeature)
    (d : List (Option Nat)) (i : Int) (o : MapIconOptions) (v : Option Bool)
    (n : Nat) (g : Geometry) (hg : f.geometry = some g) :
    ∃ s', activate (mkBridge f d i o v n) = Except.ok s' ∧
      ((∃ m, s'.marker = some m) ↔
        (∃ st image, f.style = some st ∧ st.image = some image ∧
          image.isIcon = true ∧ o.useCanvas.getD false = true)) ∧
      ((∃ l, s'.label = some l) ↔
        (∃ st t, f.style = some st ∧ st.text = some t)) ∧
      (∀ m, s'.marker = some m →
        ∃ st, f.style = some st ∧ m.zIndex = st.zIndex.getD i) ∧
      (∀ l, s'.label = some l →
        ∃ st, f.style = some st ∧ l.zIndex = st.zIndex.getD i) := by
  refine ⟨_, activate_mkBridge f d i o v n g hg, ?_, ?_, ?_, ?_⟩ <;>
  · obtain ⟨fg, fs⟩ := f
    obtain ⟨uc⟩ := o
    rcases fs with _ | ⟨zi, img, tx⟩
    · simp [activateModel, markerCond, overlayIndex]
    · rcases img with _ | ⟨_ | _⟩ <;> rcases tx with _ | _ <;>
        rcases uc with _ | (_ | _) <;>
        simp [activateModel, markerCond, overlayIndex]

/-- C7 witness: a style with icon-typed image and text, canvas enabled,
yields both overlays; disabling canvas is covered by the iff at this same
input through `useCanvas.getD`. -/
theorem activate_overlay_conditions_spot :
    ∃ s', activate (mkBridge ⟨some ⟨0, (1, 2)⟩, some ⟨some 9, some ⟨true⟩, some "A"⟩⟩
        [] 3 ⟨some true⟩ none 10) = Except.ok s' ∧
      ((∃ m, s'.marker = some m) ↔
        (∃ st image,
          (⟨some ⟨0, (1, 2)⟩, some ⟨some 9, some ⟨true⟩, some "A"⟩⟩ : SourceFeature).style =
            some st ∧ st.image = some image ∧ image.isIcon = true ∧
          (⟨some true⟩ : MapIconOptions).useCanvas.getD false = true)) ∧
      ((∃ l, s'.label = some l) ↔
        (∃ st t,
          (⟨some ⟨0, (1, 2)⟩, some ⟨some 9, some ⟨true⟩, some "A"⟩⟩ : SourceFeature).style =
            some st ∧ st.text = some t)) ∧
      (∀ m, s'.marker = some m →
        ∃ st,
          (⟨some ⟨0, (1, 2)⟩, some ⟨some 9, some ⟨true⟩, some "A"⟩⟩ : SourceFeature).style =
            some st ∧ m.zIndex = st.zIndex.getD 3) ∧
      (∀ l, s'.label = some l →
        ∃ st,
          (⟨some ⟨0, (1, 2)⟩, some ⟨some 9, some ⟨true⟩, some "A"⟩⟩ : SourceFeature).style =
            some st ∧ l.zIndex = st.zIndex.getD 3) :=
  activate_overlay_conditions ⟨some ⟨0, (1, 2)⟩, some ⟨some 9, some ⟨true⟩, some "A"⟩⟩
    [] 3 ⟨some true⟩ none 10 ⟨0, (1, 2)⟩ rfl

/-- C1: on an active bridge, replacing the source feature's geometry
attribute with a new geometry object removes the old geometry-change key
from the registry list and from the event system, subscribes a new
registered key to the new geometry instance, and synchronously brings the
mirror feature's geometry up to date; mutating the new geometry afterwards
still updates the mirror feature. -/
theorem geometry_replace_resubscribes (s : S) (hs : ActiveShape s)
    (g2 : Geometry) (c : Int × Int) :
    ∃ s1 k1 k3,
      s.geometryChangeKey = some k1 ∧
      replaceGeometry g2 s = Except.ok s1 ∧
      k1 ∉ s1.listenerKeys ∧
      (∀ l ∈ s1.listeners, l.kid ≠ k1) ∧
      s1.geometryChangeKey = some k3 ∧
      k3 ∈ s1.listenerKeys ∧
      (⟨k3, Target.geomChange g2.gid, HandlerTag.geometryChange⟩ : Listener) ∈
        s1.listeners ∧
      s1.gmapFeature.map (fun gf : GmapFeature => gf.geom) =
        some (createFeatureGeometry g2) ∧
      ∃ s2, mutateGeometry c s1 = Except.ok s2 ∧
        s2.gmapFeature.map (fun gf : GmapFeature => gf.geom) =
          some (⟨c⟩ : GmGeometry) := by
  obtain ⟨g, gf, k1, k2, hg, hgf, hk, hls, hkeys, hlt1, hlt2, hne⟩ := hs
  obtain ⟨f, dL, i, o, vis, gmf, mk, lb, so, keys, gck, act, ls, nid⟩ := s
  simp only at hg hgf hk hls hkeys hlt1 hlt2
  subst hgf hk
  have hne2 : k2 ≠ k1 := Ne.symm hne
  have hn1 : k1 ≠ nid := Nat.ne_of_lt hlt1
  have hn2 : k2 ≠ nid := Nat.ne_of_lt hlt2
  rcases hls with rfl | rfl <;> rcases hkeys with rfl | rfl <;>
    rcases mk with _ | m <;> rcases lb with _ | l <;>
    simp [replaceGeometry, fireListeners, runHandler, handleGeometryReplace_,
      handleGeometryChange_, getGeometry_, unByKey, jsSpliceIndexOf, listen,
      mutateGeometry, createFeatureGeometry, createLatLng, getCenterOf,
      List.erase_cons, hne, hne2, hn1, hn2, Ne.symm hn1, Ne.symm hn2]

/-- C1 witness: replacing the geometry on the sample active bridge, then
mutating the new geometry. -/
theorem geometry_replace_resubscribes_spot :
    ∃ s1 k1 k3,
      sampleActive.geometryChangeKey = some k1 ∧
      replaceGeometry ⟨1, (5, 6)⟩ sampleActive = Except.ok s1 ∧
      k1 ∉ s1.listenerKeys ∧
      (∀ l ∈ s1.listeners, l.kid ≠ k1) ∧
      s1.geometryChangeKey = some k3 ∧
      k3 ∈ s1.listenerKeys ∧
      (⟨k3, Target.geomChange 1, HandlerTag.geometryChange⟩ : Listener) ∈
        s1.listeners ∧
      s1.gmapFeature.map (fun gf : GmapFeature => gf.geom) =
        some (createFeatureGeometry ⟨1, (5, 6)⟩) ∧
      ∃ s2, mutateGeometry (7, 8) s1 = Except.ok s2 ∧
        s2.gmapFeature.map (fun gf : GmapFeature => gf.geom) =
          some (⟨(7, 8)⟩ : GmGeometry) :=
  geometry_replace_resubscribes sampleActive
    ⟨⟨0, (1, 2)⟩, ⟨10, ⟨(1, 2)⟩⟩, 11, 12, rfl, rfl, rfl,
      Or.inl rfl, Or.inl rfl, by decide, by decide, by decide⟩
    ⟨1, (5, 6)⟩ (7, 8)

end OlgmFeature
